import Mathlib

/-!
Shallow embedding of the spotify-youtube-converter matching and
synchronization pipeline, with theorems checking the design spec's claims
against the code.

Python strings are modelled as Lean `String`; pandas DataFrames as Lean
lists of records; and the external network APIs (YouTube Music search,
image download, playlist write API) as oracle functions passed in as
parameters.  Confidence scores (Python floats built from the weights
0.5, 0.3, 0.4, 0.2, 0.1 and clamped at 1.0) are modelled exactly in
tenths as `Nat`: 5 stands for 0.5, 10 for the clamp value 1.0, and a
confidence threshold t stands for the float t/10.  Every sum of these
weights that the code compares is computed exactly in this scale.
Exceptions are modelled with `Except`; a caught exception is an `Except`
value that the embedded handler converts to the Python function's fallback
return value.
-/

/-- Python's substring test `needle in haystack` on lists of characters:
true iff `needle` occurs contiguously inside `haystack`.  As in Python,
the empty needle is a substring of everything. -/
def isSubstrList (needle : List Char) : List Char → Bool
  | [] => needle.isEmpty
  | c :: rest => needle.isPrefixOf (c :: rest) || isSubstrList needle rest

/-- Python's `needle in haystack` for strings. -/
def pyIn (needle haystack : String) : Bool :=
  isSubstrList needle.toList haystack.toList

/-- Python's `s.lower()`: lowercase every character (ASCII case mapping,
which covers every string these services compare). -/
def pyLower (s : String) : String :=
  String.mk (s.toList.map Char.toLower)

/-- Tokenizer behind `pySplit`: walks the characters, accumulating the
current (reversed) token and emitting it at each whitespace boundary. -/
def pySplitAux : List Char → List Char → List String
  | [], cur => if cur.isEmpty then [] else [String.mk cur.reverse]
  | c :: rest, cur =>
      if c.isWhitespace then
        if cur.isEmpty then pySplitAux rest []
        else String.mk cur.reverse :: pySplitAux rest []
      else pySplitAux rest (c :: cur)

/-- Python's `s.split()` with no argument: split on whitespace runs,
dropping empty tokens. -/
def pySplit (s : String) : List String :=
  pySplitAux s.toList []

/-- One raw search result from the external YouTube Music search API:
the fields of the result dict that `youtube.py` reads (`title`,
`artists` as a list of names, album name, duration, `videoId`, and the
thumbnail URL list). -/
structure YTResult where
  title : String
  artists : List String
  album : String
  duration : String
  videoId : String
  thumbnails : List String
deriving DecidableEq

/-- Embedding of `YouTubeMusicService._calculate_match_confidence`
(src/services/youtube.py lines 69-116), in tenths: title component
(5 substring / 3 token fallback), artist component (4 containment either
way / 2 token fallback), 1 exact-match bonus, clamped at 10 (= 1.0). -/
def calculate_match_confidence (originalArtist originalTrack : String)
    (ytResult : YTResult) : Nat :=
  let ytTitle := pyLower ytResult.title
  let ytArtists := ytResult.artists.map pyLower
  let originalArtistLower := pyLower originalArtist
  let originalTrackLower := pyLower originalTrack
  let trackScore : Nat :=
    if pyIn originalTrackLower ytTitle then 5
    else if (pySplit originalTrackLower).any
        (fun word => decide (2 < word.length) && pyIn word ytTitle) then 3
    else 0
  let artistMatch : Bool :=
    ytArtists.any (fun ytArtist =>
      pyIn originalArtistLower ytArtist || pyIn ytArtist originalArtistLower)
  let artistScore : Nat :=
    if artistMatch then 4
    else if ytArtists.any (fun ytArtist =>
        (pySplit originalArtistLower).any
          (fun word => decide (2 < word.length) && pyIn word ytArtist)) then 2
    else 0
  let bonusScore : Nat :=
    if originalTrackLower == ytTitle
        && ytArtists.any (fun ytArtist => ytArtist == originalArtistLower) then 1
    else 0
  min (trackScore + artistScore + bonusScore) 10

/-- The spec's four-step reference scoring definition (spec §4.2), written
from the spec's words: (1) title component, +0.5 when the lowercase source
title is a substring of the lowercase candidate title, else +0.3 when some
whitespace token of the source title longer than 2 characters is a
substring; (2) artist component, +0.4 when some lowercase candidate artist
contains or is contained in the lowercase source artist, else +0.2 when
some whitespace token (length > 2) of the source artist is a substring of
some candidate artist; (3) +0.1 bonus when the lowercase titles are equal
and some candidate artist equals the lowercase source artist; (4) the sum
clamped by min at 1.0 (10 tenths). -/
def specConfidence (srcArtist srcTitle candTitle : String)
    (candArtists : List String) : Nat :=
  let t := pyLower srcTitle
  let a := pyLower srcArtist
  let ct := pyLower candTitle
  let cas := candArtists.map pyLower
  let titleComponent : Nat :=
    if pyIn t ct then 5
    else if (pySplit t).any (fun word => decide (2 < word.length) && pyIn word ct) then 3
    else 0
  let artistComponent : Nat :=
    if cas.any (fun ca => pyIn a ca || pyIn ca a) then 4
    else if (pySplit a).any (fun word =>
        decide (2 < word.length) && cas.any (fun ca => pyIn word ca)) then 2
    else 0
  let bonus : Nat :=
    if t == ct && cas.any (fun ca => ca == a) then 1 else 0
  min (titleComponent + artistComponent + bonus) 10

lemma any_any_comm {α β : Type} (l : List α) (m : List β) (p : β → Bool)
    (q : β → α → Bool) :
    (l.any fun a => m.any fun b => p b && q b a) =
    (m.any fun b => p b && l.any fun a => q b a) := by
  rw [Bool.eq_iff_iff]
  simp only [List.any_eq_true, Bool.and_eq_true]
  constructor
  · rintro ⟨a, ha, b, hb, hp, hq⟩
    exact ⟨b, hb, hp, a, ha, hq⟩
  · rintro ⟨b, hb, hp, a, ha, hq⟩
    exact ⟨a, ha, b, hb, hp, hq⟩

/-- C1: for every source artist, source title and search candidate, the
confidence computed by `_calculate_match_confidence` equals the spec's
four-step reference definition, and the spec's worked example — source
("Daft Punk", "One More Time") against candidate title "One More Time"
with artists ["Daft Punk"] — scores 1.0 (10 tenths). -/
theorem C1_confidence_matches_spec :
    (∀ (originalArtist originalTrack : String) (r : YTResult),
      calculate_match_confidence originalArtist originalTrack r =
        specConfidence originalArtist originalTrack r.title r.artists) ∧
    calculate_match_confidence "Daft Punk" "One More Time"
      { title := "One More Time", artists := ["Daft Punk"], album := "",
        duration := "", videoId := "", thumbnails := [] } = 10 := by
  constructor
  · intro originalArtist originalTrack r
    simp only [calculate_match_confidence, specConfidence, any_any_comm]
  · decide

/-- A processed search result: the row `search_track` builds for each raw
API result (src/services/youtube.py lines 47-59). -/
structure ProcessedResult where
  youtube_title : String
  youtube_artist : String
  youtube_album : String
  youtube_duration : String
  youtube_url : String
  youtube_video_id : String
  youtube_thumbnail : String
  match_confidence : Nat
deriving DecidableEq

/-- Python's `sep.join(parts)`. -/
def pyJoin (sep : String) : List String → String
  | [] => ""
  | [x] => x
  | x :: rest => x ++ sep ++ pyJoin sep rest

/-- Build one processed result dict from a raw search result
(src/services/youtube.py lines 49-58): artists are joined with a comma,
the URL is built from the video id, and the last thumbnail is kept. -/
def processResult (artist trackName : String) (result : YTResult) : ProcessedResult :=
  { youtube_title := result.title
    youtube_artist := pyJoin ", " result.artists
    youtube_album := result.album
    youtube_duration := result.duration
    youtube_url := "https://music.youtube.com/watch?v=" ++ result.videoId
    youtube_video_id := result.videoId
    youtube_thumbnail := result.thumbnails.getLastD ""
    match_confidence := calculate_match_confidence artist trackName result }

/-- Insert into a list sorted by descending confidence, after any earlier
entries of greater-or-equal confidence — the stability guarantee of
Python's `list.sort`. -/
def insertByConfDesc (x : ProcessedResult) : List ProcessedResult → List ProcessedResult
  | [] => [x]
  | y :: rest =>
      if y.match_confidence < x.match_confidence then x :: y :: rest
      else y :: insertByConfDesc x rest

/-- `processed_results.sort(key=match_confidence, reverse=True)`: stable
sort by descending confidence. -/
def sortByConfDesc : List ProcessedResult → List ProcessedResult
  | [] => []
  | x :: rest => insertByConfDesc x (sortByConfDesc rest)

/-- Embedding of `YouTubeMusicService.search_track` (src/services/youtube.py
lines 28-67).  The external YouTube Music search API is an oracle from
(query, limit) to `none` (the call raised) or a raw result list; a raised
search is caught and converted to the empty list. -/
def search_track (api : String → Nat → Option (List YTResult))
    (artist trackName : String) (limit : Nat) : List ProcessedResult :=
  let query := artist ++ " " ++ trackName
  match api query limit with
  | none => []
  | some results => sortByConfDesc (results.map (processResult artist trackName))

/-- One source playlist row (the Spotify-side columns that
`search_playlist_tracks` reads). -/
structure Track where
  track_name : String
  artist_name : String
  album_name : String
  spotify_url : String
deriving DecidableEq

/-- One output row of `search_playlist_tracks`: the source track merged
with the chosen candidate's data, or with the empty-match sentinel. -/
structure MatchedTrack where
  track_name : String
  artist_name : String
  album_name : String
  spotify_url : String
  youtube_title : String
  youtube_artist : String
  youtube_album : String
  youtube_duration : String
  youtube_url : String
  youtube_video_id : String
  youtube_thumbnail : String
  youtube_thumbnail_local : Option String
  match_confidence : Nat
deriving DecidableEq

/-- The combined row built when search produced at least one result
(src/services/youtube.py lines 141-172): thumbnail caching is attempted
only for a non-empty thumbnail URL, through the cache oracle. -/
def combinedResult (cache : String → Option String) (row : Track)
    (bestMatch : ProcessedResult) : MatchedTrack :=
  let thumbnailUrl := bestMatch.youtube_thumbnail
  let cachedThumbnailPath := if thumbnailUrl == "" then none else cache thumbnailUrl
  { track_name := row.track_name
    artist_name := row.artist_name
    album_name := row.album_name
    spotify_url := row.spotify_url
    youtube_title := bestMatch.youtube_title
    youtube_artist := bestMatch.youtube_artist
    youtube_album := bestMatch.youtube_album
    youtube_duration := bestMatch.youtube_duration
    youtube_url := bestMatch.youtube_url
    youtube_video_id := bestMatch.youtube_video_id
    youtube_thumbnail := bestMatch.youtube_thumbnail
    youtube_thumbnail_local := cachedThumbnailPath
    match_confidence := bestMatch.match_confidence }

/-- The empty-match sentinel row built when search produced no results
(src/services/youtube.py lines 174-194). -/
def emptyMatch (row : Track) : MatchedTrack :=
  { track_name := row.track_name
    artist_name := row.artist_name
    album_name := row.album_name
    spotify_url := row.spotify_url
    youtube_title := ""
    youtube_artist := ""
    youtube_album := ""
    youtube_duration := ""
    youtube_url := ""
    youtube_video_id := ""
    youtube_thumbnail := ""
    youtube_thumbnail_local := none
    match_confidence := 0 }

/-- The body of the per-row loop of `search_playlist_tracks`
(src/services/youtube.py lines 131-194). -/
def matchOneTrack (api : String → Nat → Option (List YTResult))
    (cache : String → Option String) (topResults : Nat) (row : Track) : MatchedTrack :=
  match search_track api row.artist_name row.track_name topResults with
  | bestMatch :: _ => combinedResult cache row bestMatch
  | [] => emptyMatch row

/-- Embedding of `YouTubeMusicService.search_playlist_tracks`
(src/services/youtube.py lines 118-196): one combined row per source row,
in source order. -/
def search_playlist_tracks (api : String → Nat → Option (List YTResult))
    (cache : String → Option String) (spotifyRows : List Track)
    (topResults : Nat) : List MatchedTrack :=
  spotifyRows.map (matchOneTrack api cache topResults)

/-- The source-catalog columns carried by a matched row. -/
def sourceOf (m : MatchedTrack) : Track :=
  { track_name := m.track_name
    artist_name := m.artist_name
    album_name := m.album_name
    spotify_url := m.spotify_url }

lemma sourceOf_matchOneTrack (api : String → Nat → Option (List YTResult))
    (cache : String → Option String) (k : Nat) (t : Track) :
    sourceOf (matchOneTrack api cache k t) = t := by
  unfold matchOneTrack
  cases search_track api t.artist_name t.track_name k <;> rfl

/-- C2: for every search oracle (including one that raises or returns no
candidates on every query), every cache oracle, every limit and every input
list, `search_playlist_tracks` returns exactly one `MatchedTrack` per input
row, in input order: mapping each output row back to its source columns
reproduces the input list exactly. -/
theorem C2_one_output_row_per_input_row
    (api : String → Nat → Option (List YTResult)) (cache : String → Option String)
    (k : Nat) (rows : List Track) :
    (search_playlist_tracks api cache rows k).length = rows.length ∧
    (search_playlist_tracks api cache rows k).map sourceOf = rows := by
  constructor
  · simp [search_playlist_tracks]
  · rw [search_playlist_tracks, List.map_map]
    induction rows with
    | nil => rfl
    | cons t rest ih =>
        simp only [List.map_cons, Function.comp_apply, sourceOf_matchOneTrack, ih]

/-- C5 counterexample: with source track ("yy" by "xx") and a search
oracle returning one candidate titled "zzzz" by "wwww" — no title or
artist overlap, so the candidate scores 0 — `search_playlist_tracks`
still merges the candidate: the produced `MatchedTrack` has confidence
0.0 together with the non-empty target title "zzzz", contradicting the
claim that confidence 0.0 only occurs on the all-empty sentinel. -/
theorem C5_counterexample :
    (search_playlist_tracks
        (fun _ _ => some [{ title := "zzzz", artists := ["wwww"], album := "",
                            duration := "", videoId := "v1", thumbnails := [] }])
        (fun _ => none)
        [{ track_name := "yy", artist_name := "xx", album_name := "",
           spotify_url := "" }] 3).map
      (fun m => (m.match_confidence, m.youtube_title)) = [(0, "zzzz")] := by
  decide

/-- C5 amended: every `MatchedTrack` produced by `search_playlist_tracks`
is either the merge of its source row with the first entry of the sorted
search results — whose confidence may be 0 — or the empty-match sentinel,
used exactly when the track's search raises or returns no candidates; a
merged row keeps the best candidate's confidence, and the sentinel has
confidence 0 with all target fields empty. -/
theorem C5_merge_or_sentinel (api : String → Nat → Option (List YTResult))
    (cache : String → Option String) (k : Nat) (rows : List Track)
    (t : Track) (i : Nat) (h : rows[i]? = some t) :
    (search_playlist_tracks api cache rows k)[i]? = some
      (match search_track api t.artist_name t.track_name k with
       | [] => emptyMatch t
       | bestMatch :: _ => combinedResult cache t bestMatch) ∧
    (emptyMatch t).match_confidence = 0 ∧ (emptyMatch t).youtube_title = "" ∧
    (emptyMatch t).youtube_video_id = "" ∧ (emptyMatch t).youtube_url = "" ∧
    (∀ best rest, search_track api t.artist_name t.track_name k = best :: rest →
      (combinedResult cache t best).match_confidence = best.match_confidence) := by
  refine ⟨?_, rfl, rfl, rfl, rfl, ?_⟩
  · rw [search_playlist_tracks, List.getElem?_map, h, Option.map_some']
    unfold matchOneTrack
    cases search_track api t.artist_name t.track_name k <;> rfl
  · intro best rest hbr
    rfl

/-- Witness for C5 amended at a concrete input: a single row whose search
raises produces exactly the sentinel row. -/
theorem C5_merge_or_sentinel_witness :
    (search_playlist_tracks (fun _ _ => none) (fun _ => none)
        [{ track_name := "a", artist_name := "b", album_name := "",
           spotify_url := "" }] 3)[0]? =
      some (emptyMatch { track_name := "a", artist_name := "b", album_name := "",
                         spotify_url := "" }) := by
  have h := (C5_merge_or_sentinel (fun _ _ => none) (fun _ => none) 3
      [{ track_name := "a", artist_name := "b", album_name := "", spotify_url := "" }]
      { track_name := "a", artist_name := "b", album_name := "", spotify_url := "" }
      0 rfl).1
  simpa [search_track] using h

/-- The cache directory's contents: the filenames currently present
(src/utils/image_cache.py stores one file per cached URL). -/
structure CacheState where
  files : List String
deriving DecidableEq

/-- `cache_path.exists()` for a filename in the cache directory. -/
def fileExists (s : CacheState) (filename : String) : Bool :=
  s.files.contains filename

/-- Embedding of `ImageCache._get_cache_filename` (image_cache.py lines
32-45): a deterministic hash of the URL plus the extension.  The md5 hex
digest is modelled by the hash-function parameter `urlHash`. -/
def get_cache_filename (urlHash : String → String) (url : String) (ext : String) : String :=
  urlHash url ++ "." ++ ext

/-- Embedding of `ImageCache._detect_image_format` (image_cache.py lines
47-73): content type first, then URL suffix heuristic, defaulting to jpg. -/
def detect_image_format (url : String) (contentType : String) : String :=
  if !(contentType == "") && (pyIn "jpeg" contentType || pyIn "jpg" contentType) then "jpg"
  else if !(contentType == "") && pyIn "png" contentType then "png"
  else if !(contentType == "") && pyIn "webp" contentType then "webp"
  else if pyIn ".png" (pyLower url) then "png"
  else if pyIn ".webp" (pyLower url) then "webp"
  else "jpg"

/-- `str(self.cache_dir / filename)` for the default cache directory. -/
def cachePathOf (filename : String) : String :=
  "data/thumbnails/" ++ filename

/-- The probe loop of `get_cached_image` (image_cache.py lines 90-94):
try each known extension and return the first existing cached file. -/
def probeCached (urlHash : String → String) (s : CacheState) (url : String) :
    List String → Option String
  | [] => none
  | ext :: rest =>
      if fileExists s (get_cache_filename urlHash url ext) then
        some (cachePathOf (get_cache_filename urlHash url ext))
      else probeCached urlHash s url rest

/-- Embedding of `ImageCache.get_cached_image` (image_cache.py lines
75-118).  The network is an oracle from URL to `none` (transport error,
timeout or non-success status — the raised exception is caught and turned
into a `none` result) or the response's content type.  Returns the local
path (or `none`), the new cache state, and the number of network requests
issued by this call. -/
def get_cached_image (urlHash : String → String) (net : String → Option String)
    (url : String) (s : CacheState) : Option String × CacheState × Nat :=
  if url == "" then (none, s, 0)
  else
    match probeCached urlHash s url ["jpg", "png", "webp"] with
    | some cachePath => (some cachePath, s, 0)
    | none =>
        match net url with
        | none => (none, s, 1)
        | some contentType =>
            let ext := detect_image_format url contentType
            let filename := get_cache_filename urlHash url ext
            (some (cachePathOf filename), ⟨filename :: s.files⟩, 1)

/-- C10: a single call of the public single-URL cache entry point with the
empty URL returns null immediately: no network request is made and the
cache directory is left untouched. -/
theorem C10_empty_url_short_circuit (urlHash : String → String)
    (net : String → Option String) (s : CacheState) :
    get_cached_image urlHash net "" s = (none, s, 0) := rfl

lemma probeCached_eq_none (urlHash : String → String) (s : CacheState)
    (url : String) (l : List String)
    (hnone : probeCached urlHash s url l = none) :
    ∀ e ∈ l, fileExists s (get_cache_filename urlHash url e) = false := by
  induction l with
  | nil => intro e he; cases he
  | cons ext rest ih =>
      intro e he
      rw [probeCached] at hnone
      by_cases hex : fileExists s (get_cache_filename urlHash url ext) = true
      · rw [if_pos hex] at hnone
        cases hnone
      · rw [if_neg hex] at hnone
        rcases List.mem_cons.mp he with he1 | he2
        · subst he1
          exact Bool.not_eq_true _ ▸ Bool.eq_false_iff.mpr (fun hc => hex hc)
        · exact ih hnone e he2

lemma string_append_right_ne (a : String) {b c : String} (hbc : b ≠ c) :
    a ++ b ≠ a ++ c := by
  intro he
  apply hbc
  have hd : a.data ++ b.data = a.data ++ c.data := by
    have h2 := congrArg String.data he
    simpa [String.data_append] using h2
  cases b
  cases c
  exact congrArg String.mk (List.append_cancel_left hd)

lemma detect_image_format_cases (url contentType : String) :
    detect_image_format url contentType = "jpg" ∨
    detect_image_format url contentType = "png" ∨
    detect_image_format url contentType = "webp" := by
  unfold detect_image_format
  split
  · exact Or.inl rfl
  · split
    · exact Or.inr (Or.inl rfl)
    · split
      · exact Or.inr (Or.inr rfl)
      · split
        · exact Or.inr (Or.inl rfl)
        · split
          · exact Or.inr (Or.inr rfl)
          · exact Or.inl rfl

lemma probeCached_after_write (urlHash : String → String) (s : CacheState)
    (url : String) (ext : String)
    (hext : ext = "jpg" ∨ ext = "png" ∨ ext = "webp")
    (habs : ∀ e ∈ ["jpg", "png", "webp"],
      fileExists s (get_cache_filename urlHash url e) = false) :
    probeCached urlHash ⟨get_cache_filename urlHash url ext :: s.files⟩ url
        ["jpg", "png", "webp"] =
      some (cachePathOf (get_cache_filename urlHash url ext)) := by
  have hjpg : get_cache_filename urlHash url "jpg" ∉ s.files := by
    simpa [fileExists] using habs "jpg" (by simp)
  have hpng : get_cache_filename urlHash url "png" ∉ s.files := by
    simpa [fileExists] using habs "png" (by simp)
  have hwebp : get_cache_filename urlHash url "webp" ∉ s.files := by
    simpa [fileExists] using habs "webp" (by simp)
  have hne : ∀ e1 e2 : String, e1 ≠ e2 →
      get_cache_filename urlHash url e1 ≠ get_cache_filename urlHash url e2 := by
    intro e1 e2 h12
    exact string_append_right_ne _ h12
  rcases hext with h | h | h <;> subst h <;>
    simp [probeCached, fileExists, List.contains_cons, hjpg, hpng, hwebp,
      hne "jpg" "png" (by decide), hne "jpg" "webp" (by decide),
      hne "png" "jpg" (by decide), hne "png" "webp" (by decide),
      hne "webp" "jpg" (by decide), hne "webp" "png" (by decide)]

/-- C3 counterexample: for URL "u" on an empty cache with a network oracle
that fails the request, the failed download is not cached, so each of two
consecutive `get_cached_image` calls issues its own network request — two
requests in total, refuting "at most one network request in total" (both
calls do return the same null path). -/
theorem C3_counterexample :
    ((get_cached_image (fun u => u) (fun _ => none) "u" ⟨[]⟩).2.2 +
      (get_cached_image (fun u => u) (fun _ => none) "u"
        ((get_cached_image (fun u => u) (fun _ => none) "u" ⟨[]⟩).2.1)).2.2 = 2) ∧
    ¬ ((get_cached_image (fun u => u) (fun _ => none) "u" ⟨[]⟩).2.2 +
      (get_cached_image (fun u => u) (fun _ => none) "u"
        ((get_cached_image (fun u => u) (fun _ => none) "u" ⟨[]⟩).2.1)).2.2 ≤ 1) := by
  decide

/-- C3 amended: calling `get_cached_image` twice with the same URL and no
eviction in between always returns the same path on both calls, and
whenever the first call returns a path (a cache hit or a successful
download — rather than a failed download, which is not cached and is
retried by the second call) the two calls perform at most one network
request in total. -/
theorem C3_idempotent_when_successful (urlHash : String → String)
    (net : String → Option String) (url : String) (s : CacheState) :
    (get_cached_image urlHash net url
        ((get_cached_image urlHash net url s).2.1)).1 =
      (get_cached_image urlHash net url s).1 ∧
    ((get_cached_image urlHash net url s).1.isSome = true →
      (get_cached_image urlHash net url s).2.2 +
        (get_cached_image urlHash net url
          ((get_cached_image urlHash net url s).2.1)).2.2 ≤ 1) := by
  by_cases hu : url = ""
  · subst hu
    simp [get_cached_image]
  · have hu' : (url == "") = false := beq_eq_false_iff_ne.mpr hu
    cases hfound : probeCached urlHash s url ["jpg", "png", "webp"] with
    | some p =>
        simp [get_cached_image, hu', hfound]
    | none =>
        cases hnet : net url with
        | none =>
            simp [get_cached_image, hu', hfound, hnet]
        | some ct =>
            have habs := probeCached_eq_none urlHash s url _ hfound
            have hsecond := probeCached_after_write urlHash s url
              (detect_image_format url ct) (detect_image_format_cases url ct) habs
            simp [get_cached_image, hu', hfound, hnet, hsecond]

/-- Witness for C3 amended at a concrete input: an empty cache and a
network oracle answering with content type "image/png" — the first call
succeeds, both calls agree, and one request is made in total. -/
theorem C3_idempotent_when_successful_witness :
    ((get_cached_image (fun u => u) (fun _ => some "image/png") "u" ⟨[]⟩).1.isSome = true) ∧
    ((get_cached_image (fun u => u) (fun _ => some "image/png") "u"
        ((get_cached_image (fun u => u) (fun _ => some "image/png") "u" ⟨[]⟩).2.1)).1 =
      (get_cached_image (fun u => u) (fun _ => some "image/png") "u" ⟨[]⟩).1) ∧
    ((get_cached_image (fun u => u) (fun _ => some "image/png") "u" ⟨[]⟩).2.2 +
      (get_cached_image (fun u => u) (fun _ => some "image/png") "u"
        ((get_cached_image (fun u => u) (fun _ => some "image/png") "u" ⟨[]⟩).2.1)).2.2 ≤ 1) :=
  ⟨by decide,
   (C3_idempotent_when_successful (fun u => u) (fun _ => some "image/png") "u" ⟨[]⟩).1,
   (C3_idempotent_when_successful (fun u => u) (fun _ => some "image/png") "u" ⟨[]⟩).2 (by decide)⟩

/-- One row of the DataFrame handed to `create_playlist_from_tracks`
(the columns it reads).  `youtube_video_id` is `none` for a missing (NaN)
value and `some s` for the string `s`; confidence is in tenths. -/
structure SyncTrack where
  track_name : String
  artist_name : String
  match_confidence : Nat
  youtube_video_id : Option String
deriving DecidableEq

/-- One entry of the `tracks_failed` list (youtube_playlist.py lines
267-271). -/
structure FailedTrack where
  track_name : String
  artist_name : String
  video_id : String
deriving DecidableEq

/-- The result dict of `create_playlist_from_tracks` (youtube_playlist.py
lines 234-240, 247-253 and 273-284).  Fields that appear only in some of
the three returned dicts are `Option`s, absent modelled as `none`. -/
structure CreationResult where
  success : Bool
  error : Option String
  playlist_id : Option String
  playlist_url : Option String
  playlist_name : Option String
  tracks_attempted : Nat
  tracks_added : Nat
  tracks_failed : Option Nat
  tracks_skipped : Nat
  failed_tracks : List FailedTrack
  confidence_threshold : Option Nat
deriving DecidableEq

/-- The write calls a run of `create_playlist_from_tracks` issued against
the YouTube Data API: how many `playlists().insert` calls were made and
which video ids were passed to `playlistItems().insert`, in order. -/
structure ApiLog where
  createCalls : Nat
  addCalls : List String
deriving DecidableEq

/-- The availability half of the eligibility filter (youtube_playlist.py
lines 229-230): `youtube_video_id != '' ` and `notna()`. -/
def validVideoId : Option String → Bool
  | none => false
  | some s => !(s == "")

/-- The eligibility filter of `create_playlist_from_tracks`
(youtube_playlist.py lines 227-231): confidence at or above the threshold
and a present, non-empty video id. -/
def eligibleTracks (tracks : List SyncTrack) (confidenceThreshold : Nat) :
    List SyncTrack :=
  tracks.filter (fun t =>
    decide (confidenceThreshold ≤ t.match_confidence) && validVideoId t.youtube_video_id)

/-- The video id read off an eligible row (guaranteed present there). -/
def videoIdStr (t : SyncTrack) : String :=
  t.youtube_video_id.getD ""

/-- `description or f"Created from Spotify playlist with {n} tracks"`
(youtube_playlist.py line 243). -/
def playlistDescOf (description : String) (validCount : Nat) : String :=
  if description == "" then
    "Created from Spotify playlist with " ++ toString validCount ++ " tracks"
  else description

/-- The per-track insertion loop (youtube_playlist.py lines 259-271):
returns (tracks added, failed list in loop order, video ids attempted in
loop order).  `addApi` is the oracle for `add_video_to_playlist`, which
returns false on failure rather than raising. -/
def addLoop (addApi : String → Bool) : List SyncTrack → Nat × List FailedTrack × List String
  | [] => (0, [], [])
  | t :: rest =>
      let vid := videoIdStr t
      let out := addLoop addApi rest
      if addApi vid then (out.1 + 1, out.2.1, vid :: out.2.2)
      else (out.1, ⟨t.track_name, t.artist_name, vid⟩ :: out.2.1, vid :: out.2.2)

/-- Embedding of `YouTubePlaylistService.create_playlist_from_tracks`
(src/services/youtube_playlist.py lines 206-284).  `authenticated` is the
state `is_authenticated()` reads; `createApi` is the oracle for
`create_playlist` (name, description ↦ playlist id or `none` on API
error); `addApi` the oracle for `add_video_to_playlist`.  Returns the
raised exception or the result dict, together with the write-API log. -/
def create_playlist_from_tracks (authenticated : Bool)
    (createApi : String → String → Option String) (addApi : String → Bool)
    (playlistName : String) (tracks : List SyncTrack)
    (confidenceThreshold : Nat) (description : String) :
    Except String CreationResult × ApiLog :=
  if !authenticated then
    (.error "Not authenticated. Please authenticate first.", ⟨0, []⟩)
  else
    let validTracks := eligibleTracks tracks confidenceThreshold
    if validTracks.length = 0 then
      (.ok { success := false
             error := some "No valid tracks found to add to playlist"
             playlist_id := none
             playlist_url := none
             playlist_name := none
             tracks_attempted := 0
             tracks_added := 0
             tracks_failed := none
             tracks_skipped := tracks.length
             failed_tracks := []
             confidence_threshold := none }, ⟨0, []⟩)
    else
      let playlistDesc := playlistDescOf description validTracks.length
      match createApi playlistName playlistDesc with
      | none =>
          (.ok { success := false
                 error := some "Failed to create playlist"
                 playlist_id := none
                 playlist_url := none
                 playlist_name := none
                 tracks_attempted := 0
                 tracks_added := 0
                 tracks_failed := none
                 tracks_skipped := tracks.length
                 failed_tracks := []
                 confidence_threshold := none }, ⟨1, []⟩)
      | some playlistId =>
          let out := addLoop addApi validTracks
          (.ok { success := true
                 error := none
                 playlist_id := some playlistId
                 playlist_url := some ("https://www.youtube.com/playlist?list=" ++ playlistId)
                 playlist_name := some playlistName
                 tracks_attempted := validTracks.length
                 tracks_added := out.1
                 tracks_failed := some out.2.1.length
                 tracks_skipped := tracks.length - validTracks.length
                 failed_tracks := out.2.1
                 confidence_threshold := some confidenceThreshold }, ⟨1, out.2.2⟩)

lemma addLoop_count (addApi : String → Bool) (l : List SyncTrack) :
    (addLoop addApi l).1 + (addLoop addApi l).2.1.length = l.length ∧
    (addLoop addApi l).2.2 = l.map videoIdStr := by
  induction l with
  | nil => exact ⟨rfl, rfl⟩
  | cons t rest ih =>
      obtain ⟨ih1, ih2⟩ := ih
      cases h : addApi (videoIdStr t) with
      | true =>
          simp only [addLoop, h, if_true, List.length_cons, List.map_cons]
          exact ⟨by omega, by rw [ih2]⟩
      | false =>
          simp only [addLoop, h, Bool.false_eq_true, if_false,
            List.length_cons, List.map_cons]
          exact ⟨by omega, by rw [ih2]⟩

lemma addLoop_all_fail (addApi : String → Bool) :
    ∀ l : List SyncTrack, (∀ t ∈ l, addApi (videoIdStr t) = false) →
      (addLoop addApi l).1 = 0 ∧ (addLoop addApi l).2.1.length = l.length := by
  intro l
  induction l with
  | nil => exact fun _ => ⟨rfl, rfl⟩
  | cons t rest ih =>
      intro hfail
      obtain ⟨ih1, ih2⟩ := ih (fun x hx => hfail x (List.mem_cons_of_mem t hx))
      have hhd := hfail t (List.mem_cons_self t rest)
      simp only [addLoop, hhd, Bool.false_eq_true, if_false, List.length_cons]
      exact ⟨ih1, by rw [ih2]⟩

/-- C7: with an authenticated session, whenever zero tracks pass the
confidence-and-video-id filter, `create_playlist_from_tracks` returns the
structured failure result — success false, an error message, zero
attempted, zero added — and issues no playlist-creation (and no
insertion) API call at all. -/
theorem C7_zero_eligible_structured_failure
    (createApi : String → String → Option String) (addApi : String → Bool)
    (playlistName : String) (tracks : List SyncTrack)
    (confidenceThreshold : Nat) (description : String)
    (h : eligibleTracks tracks confidenceThreshold = []) :
    create_playlist_from_tracks true createApi addApi playlistName tracks
        confidenceThreshold description =
      (.ok { success := false
             error := some "No valid tracks found to add to playlist"
             playlist_id := none
             playlist_url := none
             playlist_name := none
             tracks_attempted := 0
             tracks_added := 0
             tracks_failed := none
             tracks_skipped := tracks.length
             failed_tracks := []
             confidence_threshold := none }, ⟨0, []⟩) := by
  simp [create_playlist_from_tracks, h]

/-- Witness for C7 at a concrete input: one track below the threshold. -/
theorem C7_zero_eligible_structured_failure_witness :
    create_playlist_from_tracks true (fun _ _ => some "P1") (fun _ => true) "P"
        [{ track_name := "a", artist_name := "b", match_confidence := 3,
           youtube_video_id := some "v" }] 7 "" =
      (.ok { success := false
             error := some "No valid tracks found to add to playlist"
             playlist_id := none
             playlist_url := none
             playlist_name := none
             tracks_attempted := 0
             tracks_added := 0
             tracks_failed := none
             tracks_skipped := 1
             failed_tracks := []
             confidence_threshold := none }, ⟨0, []⟩) :=
  C7_zero_eligible_structured_failure (fun _ _ => some "P1") (fun _ => true) "P"
    [{ track_name := "a", artist_name := "b", match_confidence := 3,
       youtube_video_id := some "v" }] 7 "" (by decide)

/-- C4 counterexample: one eligible track (confidence 10, video id "v",
threshold 0) and a failing playlist-creation API.  The creation-failure
branch reports `tracks_skipped = 1` — the whole input — although the
input minus the eligible count is 1 - 1 = 0, refuting the claim for the
branch where playlist creation fails. -/
theorem C4_counterexample :
    ((create_playlist_from_tracks true (fun _ _ => none) (fun _ => true) "P"
        [{ track_name := "a", artist_name := "b", match_confidence := 10,
           youtube_video_id := some "v" }] 0 "").1 =
      .ok { success := false
            error := some "Failed to create playlist"
            playlist_id := none
            playlist_url := none
            playlist_name := none
            tracks_attempted := 0
            tracks_added := 0
            tracks_failed := none
            tracks_skipped := 1
            failed_tracks := []
            confidence_threshold := none }) ∧
    (eligibleTracks [{ track_name := "a", artist_name := "b", match_confidence := 10,
                       youtube_video_id := some "v" }] 0).length = 1 ∧
    ([{ track_name := "a", artist_name := "b", match_confidence := 10,
        youtube_video_id := some "v" }] : List SyncTrack).length -
      (eligibleTracks [{ track_name := "a", artist_name := "b", match_confidence := 10,
                         youtube_video_id := some "v" }] 0).length = 0 :=
  ⟨rfl, rfl, rfl⟩

/-- C4 amended: with an authenticated session the returned result's
`tracks_skipped` equals total minus eligible in the zero-eligible branch
(where eligible = 0) and in the success branch, but equals the total
number of input tracks in the branch where playlist creation fails. -/
theorem C4_skipped_count (createApi : String → String → Option String)
    (addApi : String → Bool) (playlistName : String) (tracks : List SyncTrack)
    (confidenceThreshold : Nat) (description : String) :
    ∃ r : CreationResult,
      (create_playlist_from_tracks true createApi addApi playlistName tracks
          confidenceThreshold description).1 = .ok r ∧
      r.tracks_skipped =
        (if (eligibleTracks tracks confidenceThreshold).length ≠ 0 ∧
            createApi playlistName (playlistDescOf description
              (eligibleTracks tracks confidenceThreshold).length) = none
         then tracks.length
         else tracks.length - (eligibleTracks tracks confidenceThreshold).length) := by
  by_cases hlen : (eligibleTracks tracks confidenceThreshold).length = 0
  · refine ⟨{ success := false
              error := some "No valid tracks found to add to playlist"
              playlist_id := none
              playlist_url := none
              playlist_name := none
              tracks_attempted := 0
              tracks_added := 0
              tracks_failed := none
              tracks_skipped := tracks.length
              failed_tracks := []
              confidence_threshold := none }, ?_, ?_⟩
    · simp [create_playlist_from_tracks, hlen]
    · rw [if_neg (fun hc => hc.1 hlen), hlen, Nat.sub_zero]
  · cases hcr : createApi playlistName (playlistDescOf description
        (eligibleTracks tracks confidenceThreshold).length) with
    | none =>
        refine ⟨{ success := false
                  error := some "Failed to create playlist"
                  playlist_id := none
                  playlist_url := none
                  playlist_name := none
                  tracks_attempted := 0
                  tracks_added := 0
                  tracks_failed := none
                  tracks_skipped := tracks.length
                  failed_tracks := []
                  confidence_threshold := none }, ?_, ?_⟩
        · simp [create_playlist_from_tracks, hlen, hcr]
        · rw [if_pos ⟨hlen, rfl⟩]
    | some playlistId =>
        refine ⟨{ success := true
                  error := none
                  playlist_id := some playlistId
                  playlist_url := some ("https://www.youtube.com/playlist?list=" ++ playlistId)
                  playlist_name := some playlistName
                  tracks_attempted := (eligibleTracks tracks confidenceThreshold).length
                  tracks_added := (addLoop addApi (eligibleTracks tracks confidenceThreshold)).1
                  tracks_failed := some (addLoop addApi (eligibleTracks tracks confidenceThreshold)).2.1.length
                  tracks_skipped := tracks.length - (eligibleTracks tracks confidenceThreshold).length
                  failed_tracks := (addLoop addApi (eligibleTracks tracks confidenceThreshold)).2.1
                  confidence_threshold := some confidenceThreshold }, ?_, ?_⟩
        · simp [create_playlist_from_tracks, hlen, hcr]
        · rw [if_neg (fun hc => Option.noConfusion hc.2)]

/-- C6: with an authenticated session, whenever playlist creation
succeeds, every eligible track's video id is passed to the insertion API
exactly once, in order, regardless of earlier per-track failures; the
result has success true and added plus failed-list length equal to
attempted; and when every insertion fails, added is 0 and the failed list
is as long as the attempted count. -/
theorem C6_every_eligible_attempted_once (createApi : String → String → Option String)
    (addApi : String → Bool) (playlistName : String) (tracks : List SyncTrack)
    (confidenceThreshold : Nat) (description : String) (playlistId : String)
    (hne : (eligibleTracks tracks confidenceThreshold).length ≠ 0)
    (hcr : createApi playlistName (playlistDescOf description
        (eligibleTracks tracks confidenceThreshold).length) = some playlistId) :
    ∃ r : CreationResult,
      (create_playlist_from_tracks true createApi addApi playlistName tracks
          confidenceThreshold description).1 = .ok r ∧
      r.success = true ∧
      (create_playlist_from_tracks true createApi addApi playlistName tracks
          confidenceThreshold description).2.addCalls =
        (eligibleTracks tracks confidenceThreshold).map videoIdStr ∧
      r.tracks_attempted = (eligibleTracks tracks confidenceThreshold).length ∧
      r.tracks_added + r.failed_tracks.length = r.tracks_attempted ∧
      ((∀ t ∈ eligibleTracks tracks confidenceThreshold,
          addApi (videoIdStr t) = false) →
        r.tracks_added = 0 ∧ r.failed_tracks.length = r.tracks_attempted) := by
  refine ⟨{ success := true
            error := none
            playlist_id := some playlistId
            playlist_url := some ("https://www.youtube.com/playlist?list=" ++ playlistId)
            playlist_name := some playlistName
            tracks_attempted := (eligibleTracks tracks confidenceThreshold).length
            tracks_added := (addLoop addApi (eligibleTracks tracks confidenceThreshold)).1
            tracks_failed := some (addLoop addApi (eligibleTracks tracks confidenceThreshold)).2.1.length
            tracks_skipped := tracks.length - (eligibleTracks tracks confidenceThreshold).length
            failed_tracks := (addLoop addApi (eligibleTracks tracks confidenceThreshold)).2.1
            confidence_threshold := some confidenceThreshold }, ?_, rfl, ?_, rfl, ?_, ?_⟩
  · simp [create_playlist_from_tracks, hne, hcr]
  · simp [create_playlist_from_tracks, hne, hcr,
      (addLoop_count addApi (eligibleTracks tracks confidenceThreshold)).2]
  · exact (addLoop_count addApi (eligibleTracks tracks confidenceThreshold)).1
  · intro hfail
    exact addLoop_all_fail addApi (eligibleTracks tracks confidenceThreshold) hfail

/-- Witness for C6 at a concrete input: one eligible track, creation
succeeds, the single insertion fails — the track is still attempted,
success stays true, nothing is added and the failed list has length 1. -/
theorem C6_every_eligible_attempted_once_witness :
    ∃ r : CreationResult,
      (create_playlist_from_tracks true (fun _ _ => some "P1") (fun _ => false) "P"
          [{ track_name := "a", artist_name := "b", match_confidence := 10,
             youtube_video_id := some "v" }] 0 "").1 = .ok r ∧
      r.success = true ∧
      (create_playlist_from_tracks true (fun _ _ => some "P1") (fun _ => false) "P"
          [{ track_name := "a", artist_name := "b", match_confidence := 10,
             youtube_video_id := some "v" }] 0 "").2.addCalls =
        (eligibleTracks [{ track_name := "a", artist_name := "b", match_confidence := 10,
                           youtube_video_id := some "v" }] 0).map videoIdStr ∧
      r.tracks_attempted = 1 ∧
      r.tracks_added + r.failed_tracks.length = r.tracks_attempted ∧
      r.tracks_added = 0 ∧ r.failed_tracks.length = r.tracks_attempted := by
  obtain ⟨r, h1, h2, h3, h4, h5, h6⟩ :=
    C6_every_eligible_attempted_once (fun _ _ => some "P1") (fun _ => false) "P"
      [{ track_name := "a", artist_name := "b", match_confidence := 10,
         youtube_video_id := some "v" }] 0 "" "P1" (by decide) rfl
  obtain ⟨h7, h8⟩ := h6 (by decide)
  exact ⟨r, h1, h2, h3, by rw [h4]; rfl, h5, h7, h8⟩

/-- C9 counterexample: with no valid OAuth session,
`create_playlist_from_tracks` raises ValueError ("Not authenticated...")
instead of returning a structured result, refuting the claim for the
auth-missing precondition. -/
theorem C9_counterexample :
    create_playlist_from_tracks false (fun _ _ => some "P1") (fun _ => true)
        "P" [] 0 "" =
      (.error "Not authenticated. Please authenticate first.", ⟨0, []⟩) := rfl

/-- C9 amended: the zero-eligible and creation-failure preconditions
short-circuit the write phase — no insertion call is made — and are
reported as a structured result with success false and an error message;
an absent or invalid OAuth session, however, makes
`create_playlist_from_tracks` raise ValueError rather than return a
structured result. -/
theorem C9_structured_except_missing_auth (createApi : String → String → Option String)
    (addApi : String → Bool) (playlistName : String) (tracks : List SyncTrack)
    (confidenceThreshold : Nat) (description : String) :
    (∃ e, (create_playlist_from_tracks false createApi addApi playlistName tracks
        confidenceThreshold description).1 = .error e) ∧
    (((eligibleTracks tracks confidenceThreshold).length = 0 ∨
        createApi playlistName (playlistDescOf description
          (eligibleTracks tracks confidenceThreshold).length) = none) →
      ∃ r : CreationResult,
        (create_playlist_from_tracks true createApi addApi playlistName tracks
            confidenceThreshold description).1 = .ok r ∧
        r.success = false ∧ r.error.isSome = true ∧
        (create_playlist_from_tracks true createApi addApi playlistName tracks
            confidenceThreshold description).2.addCalls = []) := by
  constructor
  · exact ⟨"Not authenticated. Please authenticate first.", rfl⟩
  · intro hpre
    by_cases hlen : (eligibleTracks tracks confidenceThreshold).length = 0
    · refine ⟨{ success := false
                error := some "No valid tracks found to add to playlist"
                playlist_id := none
                playlist_url := none
                playlist_name := none
                tracks_attempted := 0
                tracks_added := 0
                tracks_failed := none
                tracks_skipped := tracks.length
                failed_tracks := []
                confidence_threshold := none }, ?_, rfl, rfl, ?_⟩
      · simp [create_playlist_from_tracks, hlen]
      · simp [create_playlist_from_tracks, hlen]
    · have hcr : createApi playlistName (playlistDescOf description
          (eligibleTracks tracks confidenceThreshold).length) = none := by
        rcases hpre with h | h
        · exact absurd h hlen
        · exact h
      refine ⟨{ success := false
                error := some "Failed to create playlist"
                playlist_id := none
                playlist_url := none
                playlist_name := none
                tracks_attempted := 0
                tracks_added := 0
                tracks_failed := none
                tracks_skipped := tracks.length
                failed_tracks := []
                confidence_threshold := none }, ?_, rfl, rfl, ?_⟩
      · simp [create_playlist_from_tracks, hlen, hcr]
      · simp [create_playlist_from_tracks, hlen, hcr]

/-- Witness for C9 amended at a concrete input: empty input (so zero
eligible tracks) gives the structured failure with no write calls, and
the unauthenticated variant raises. -/
theorem C9_structured_except_missing_auth_witness :
    (∃ e, (create_playlist_from_tracks false (fun _ _ => none) (fun _ => true)
        "P" [] 0 "").1 = .error e) ∧
    (∃ r : CreationResult,
      (create_playlist_from_tracks true (fun _ _ => none) (fun _ => true)
          "P" [] 0 "").1 = .ok r ∧
      r.success = false ∧ r.error.isSome = true ∧
      (create_playlist_from_tracks true (fun _ _ => none) (fun _ => true)
          "P" [] 0 "").2.addCalls = []) :=
  ⟨(C9_structured_except_missing_auth (fun _ _ => none) (fun _ => true) "P" [] 0 "").1,
   (C9_structured_except_missing_auth (fun _ _ => none) (fun _ => true) "P" [] 0 "").2
     (Or.inl rfl)⟩

/-- The body of the `try` block of `authenticate_with_code`
(youtube_playlist.py lines 112-122): without a stored `_flow` it raises
ValueError; otherwise `fetch_token` — the `exchange` oracle, false
meaning the exchange raised — either fails or succeeds, after which the
credentials are saved and the call returns True. -/
def authenticate_body (flowState : Option Unit) (exchange : String → Bool)
    (authCode : String) : Except String Bool :=
  match flowState with
  | none => .error "No authentication flow found. Call get_auth_url() first."
  | some _ =>
      if exchange authCode then .ok true
      else .error "token exchange failed"

/-- Embedding of `YouTubePlaylistService.authenticate_with_code`
(src/services/youtube_playlist.py lines 102-126): the whole body runs
inside `try/except Exception`, so every raised error — including the
no-pending-flow ValueError raised at line 114 — is caught and converted
to a False return. -/
def authenticate_with_code (flowState : Option Unit) (exchange : String → Bool)
    (authCode : String) : Bool :=
  match authenticate_body flowState exchange authCode with
  | .ok b => b
  | .error _ => false

/-- C8 counterexample: calling `authenticate_with_code` before
`get_auth_url` (no stored flow) raises the no-pending-flow ValueError
inside the `try` block, but the blanket `except` catches it and the call
returns False — it does not fail with `NoPendingFlowError` as the claim
states. -/
theorem C8_counterexample :
    authenticate_body none (fun _ => true) "code" =
      .error "No authentication flow found. Call get_auth_url() first." ∧
    authenticate_with_code none (fun _ => true) "code" = false :=
  ⟨rfl, rfl⟩

/-- C8 amended: `authenticate_with_code` returns False, rather than
raising, on any code-exchange failure; and when called before
`get_auth_url` it also returns False — the internally raised
no-pending-flow ValueError is caught by the same handler and never
reaches the caller. -/
theorem C8_false_never_raises (flowState : Option Unit)
    (exchange : String → Bool) (authCode : String) :
    authenticate_with_code none exchange authCode = false ∧
    (exchange authCode = false →
      authenticate_with_code flowState exchange authCode = false) := by
  constructor
  · rfl
  · intro hex
    cases flowState with
    | none => rfl
    | some u => simp [authenticate_with_code, authenticate_body, hex]

/-- Witness for C8 amended at a concrete input: a failing exchange with
and without a pending flow returns False. -/
theorem C8_false_never_raises_witness :
    authenticate_with_code none (fun _ => false) "c" = false ∧
    authenticate_with_code (some ()) (fun _ => false) "c" = false :=
  ⟨(C8_false_never_raises (some ()) (fun _ => false) "c").1,
   (C8_false_never_raises (some ()) (fun _ => false) "c").2 rfl⟩
